import Mathlib

/-!
# Shallow embedding of the CSV data-validator core

This file embeds, in Lean 4, the validation-and-cleaning engine of the
repository: the `DataValidator` (validator.py), the `DataCleaner`
(cleaner.py) and the `TableauPrep` preparer (tableau_prep.py), together
with the tabular data model they share.  Pandas dataframes are embedded as
ordered column lists plus labelled rows; machine floats are idealised as
rationals, with NaN propagation made explicit where the source relies on
it (skipped nulls, NaN standard deviations, NaN comparisons being false).
Square roots of variances live in `ℝ`; every comparison against a z-score
is carried out through a decidable rational form, proved pointwise equal
to the `Real.sqrt` form by the `zGtB_correct` lemma below.
-/

/-- Pandas column storage classes relevant to the source: `select_dtypes
(include=[np.number])` picks `int64`/`float64`, the boolean-consistency and
coercion checks look at `object`, and classification looks at
`datetime64`. -/
inductive Dtype where
  | int64
  | float64
  | object
  | datetime64
  | boolean
deriving DecidableEq, Repr

/-- A cell of a dataframe.  `null` stands for `NaN`/`None`/`NaT`; numbers are
idealised as rationals; `date` is an abstract timestamp. -/
inductive Cell where
  | num  (q : ℚ)
  | str  (s : String)
  | bool (b : Bool)
  | date (d : ℤ)
  | null
deriving DecidableEq, Repr

/-- A pandas dataframe: named, typed columns in order, and labelled rows whose
cell lists follow the column order.  Row labels (`ℤ`) model the pandas index.
Invariant of the data model (§3): every row has exactly one cell per column. -/
structure DataFrame where
  colNames : List String
  dtypes   : List Dtype
  rows     : List (ℤ × List Cell)
deriving DecidableEq, Repr

namespace DataFrame

/-- `df` is well formed when it has one dtype per column and each row carries
exactly one cell per column (the data-model invariant of §3). -/
def WF (df : DataFrame) : Prop :=
  df.dtypes.length = df.colNames.length ∧
  ∀ r ∈ df.rows, r.2.length = df.colNames.length

instance : DecidablePred WF := by
  intro df; unfold WF; infer_instance

/-- The columns, as (position, name, dtype) triples, in column order. -/
def columns (df : DataFrame) : List (ℕ × String × Dtype) :=
  (List.range df.colNames.length).zip (df.colNames.zip df.dtypes)

/-- The cells of column `i`, in row order (missing cells read as `null`). -/
def colCells (df : DataFrame) (i : ℕ) : List Cell :=
  df.rows.map (fun r => (r.2.get? i).getD Cell.null)

/-- The row labels, in row order (the pandas index). -/
def labels (df : DataFrame) : List ℤ :=
  df.rows.map (fun r => r.1)

/-- Number of rows (`len(df)`). -/
def nRows (df : DataFrame) : ℕ := df.rows.length

end DataFrame

/-! ## Small numeric and string helpers shared by the components -/

/-- The numeric payload of a cell, when there is one. -/
def cellNum : Cell → Option ℚ
  | .num q => some q
  | _      => none

/-- `str(value)` on a cell, as used by `astype(str)` and error records.
Integral rationals print like Python ints; `True`/`False` like Python bools.
(Non-integral floats print differently from Python's decimal form; no theorem
below depends on that spelling.) -/
def cellToStr : Cell → String
  | .num q  => if q.den = 1 then toString q.num else toString q
  | .str s  => s
  | .bool b => if b then "True" else "False"
  | .date d => toString d
  | .null   => "nan"

/-- Mean of a list of rationals; `none` models the NaN mean of an empty
(pandas-skipna) list. -/
def meanQ (l : List ℚ) : Option ℚ :=
  if l.length = 0 then none else some (l.sum / l.length)

/-- Sample variance with `ddof=1` (the pandas `std` squared); only meaningful
when the list has at least two elements (otherwise pandas `std` is NaN, which
the call sites handle separately). -/
def varQ (l : List ℚ) : ℚ :=
  match meanQ l with
  | none => 0
  | some m => (l.map (fun v => (v - m) ^ 2)).sum / (l.length - 1 : ℕ)

/-- Rounding to two decimals, modelling Python's `round(x, 2)` and the
`{x:.2f}` format on the idealised rational value.  (Python rounds the nearest
binary double half-to-even; no theorem below sits on a tie.) -/
def round2 (q : ℚ) : ℚ := ((round (q * 100) : ℤ) : ℚ) / 100

/-- Insertion of a rational into a sorted list (ascending). -/
def insertSorted (x : ℚ) : List ℚ → List ℚ
  | [] => [x]
  | y :: ys => if x ≤ y then x :: y :: ys else y :: insertSorted x ys

/-- Insertion sort, ascending; used for the pandas `median`. -/
def sortQ : List ℚ → List ℚ
  | [] => []
  | x :: xs => insertSorted x (sortQ xs)

/-- Pandas `median` over the already-filtered non-null values: middle element
for odd length, average of the two middles for even length, NaN (here `none`)
when empty. -/
def medianQ (l : List ℚ) : Option ℚ :=
  let s := sortQ l
  let n := s.length
  if n = 0 then none
  else if n % 2 = 1 then some (s.getD (n / 2) 0)
  else some ((s.getD (n / 2 - 1) 0 + s.getD (n / 2) 0) / 2)

/-- Does `hay` contain `needle` as a substring (Python's `in` on strings)? -/
def strContains (hay needle : String) : Bool :=
  (hay.toList.tails).any (fun t => needle.toList.isPrefixOf t)

/-- Python `str.lower()` (ASCII). -/
def pyLower (s : String) : String := (s.toList.map Char.toLower).asString

/-- Python `str.upper()` (ASCII). -/
def pyUpper (s : String) : String := (s.toList.map Char.toUpper).asString

/-- Helper for `pyTitle`: `prev` records whether the previous character was
alphabetic. -/
def pyTitleAux (prev : Bool) : List Char → List Char
  | [] => []
  | c :: cs =>
    if c.isAlpha then
      (if prev then c.toLower else c.toUpper) :: pyTitleAux true cs
    else
      c :: pyTitleAux false cs

/-- Python `str.title()` (ASCII): each maximal run of letters starts uppercase
and continues lowercase. -/
def pyTitle (s : String) : String := (pyTitleAux false s.toList).asString

/-- Python `str.capitalize()` (ASCII): first character uppercased, the rest
lowercased. -/
def pyCapitalize (s : String) : String :=
  match s.toList with
  | [] => ""
  | c :: cs => (c.toUpper :: cs.map Char.toLower).asString

/-- A character of the class `[a-zA-Z0-9_]`. -/
def isWordChar (c : Char) : Bool := c.isAlphanum || c = '_'

/-- Digit-string parsing: `some n` when the (nonempty) list is all ASCII
digits. -/
def parseDigits : List Char → Option ℕ
  | [] => none
  | cs => if cs.all Char.isDigit then
      some (cs.foldl (fun n c => 10 * n + (c.toNat - '0'.toNat)) 0)
    else none

/-! ## Value parsing (models of `pd.to_datetime` and `pd.to_numeric`)

`pd.to_datetime` is pandas library code, not part of this repository; it is
modelled here on ISO-style `YYYY-MM-DD` (or `YYYY/MM/DD`) strings with full
calendar validation (month 1–12, day within the month, leap years), the format
the repository's own sample data uses.  Values of other textual shapes are
treated as unparsable, which is what the checks record as a finding. -/

/-- Leap year rule of the Gregorian calendar. -/
def isLeapYear (y : ℕ) : Bool := (y % 4 = 0 && y % 100 ≠ 0) || y % 400 = 0

/-- Days in a month (1–12) of year `y`. -/
def daysInMonth (y m : ℕ) : ℕ :=
  if m = 2 then (if isLeapYear y then 29 else 28)
  else if m = 4 || m = 6 || m = 9 || m = 11 then 30
  else 31

/-- Calendar validity of a year/month/day triple. -/
def validYMD (y m d : ℕ) : Bool :=
  1 ≤ m && m ≤ 12 && 1 ≤ d && d ≤ daysInMonth y m

/-- Split a character list on a separator character (Python `str.split(sep)`
with a nonempty separator: empty segments are kept). -/
def splitOnChar (sep : Char) : List Char → List (List Char)
  | [] => [[]]
  | c :: cs =>
    let rest := splitOnChar sep cs
    if c = sep then [] :: rest
    else match rest with
      | [] => [[c]]
      | seg :: segs => (c :: seg) :: segs

/-- Model of `pd.to_datetime` succeeding on a string: an ISO-style date with a
valid calendar component. -/
def parseDateStr (s : String) : Bool :=
  let try1 := fun (sep : Char) =>
    match splitOnChar sep s.toList with
    | [ys, ms, ds] =>
      match parseDigits ys, parseDigits ms, parseDigits ds with
      | some y, some m, some d => validYMD y m d
      | _, _, _ => false
    | _ => false
  try1 '-' || try1 '/'

/-- Model of `pd.to_datetime(value)` succeeding on a cell (the date-format
check calls it on each non-null value).  Numbers and existing datetimes parse
(pandas reads numbers as epoch offsets); booleans raise, i.e. fail; strings go
through `parseDateStr`. -/
def cellParsesAsDate : Cell → Bool
  | .num _  => true
  | .date _ => true
  | .bool _ => false
  | .str s  => parseDateStr s
  | .null   => true

/-- Numeric-literal parsing on strings, modelling `float()`/`pd.to_numeric`
on the decimal forms `[+-]?digits[.digits]`.  (Python also accepts exponents
and `inf`/`nan` spellings; no theorem below depends on those.) -/
def parseNumStr (s : String) : Option ℚ :=
  let core := fun (cs : List Char) =>
    match splitOnChar '.' cs with
    | [whole] =>
      (parseDigits whole).map (fun n => (n : ℚ))
    | [whole, frac] =>
      match parseDigits whole, parseDigits frac with
      | some w, some f => some ((w : ℚ) + (f : ℚ) / (10 ^ frac.length : ℕ))
      | _, _ => none
    | _ => none
  match s.toList with
  | '-' :: cs => (core cs).map (fun q => -q)
  | '+' :: cs => core cs
  | cs => core cs

/-- Model of `pd.to_numeric(value, errors='coerce')` on a cell: numbers pass
through, booleans read as 0/1, strings are parsed, everything else coerces to
null. -/
def cellToNumeric : Cell → Option ℚ
  | .num q  => some q
  | .bool b => some (if b then 1 else 0)
  | .str s  => parseNumStr s
  | _       => none

/-! ## The email regular expression

`^[a-zA-Z0-9._%+-]+@[a-zA-Z0-9.-]+\.[a-zA-Z]{2,}$` — implemented literally as
the existence of a decomposition `local ++ "@" ++ domain ++ "." ++ tld` with
the three character-class and length constraints, searched over all split
points. -/

/-- The local-part character class `[a-zA-Z0-9._%+-]`. -/
def localChar (c : Char) : Bool :=
  c.isAlphanum || c = '.' || c = '_' || c = '%' || c = '+' || c = '-'

/-- The domain character class `[a-zA-Z0-9.-]`. -/
def domainChar (c : Char) : Bool :=
  c.isAlphanum || c = '.' || c = '-'

/-- All decompositions `cs = pre ++ suf`. -/
def splitsOf : List Char → List (List Char × List Char)
  | [] => [([], [])]
  | c :: cs => ([], c :: cs) :: (splitsOf cs).map (fun p => (c :: p.1, p.2))

/-- Does the tail after `@` match `[a-zA-Z0-9.-]+\.[a-zA-Z]{2,}` ? -/
def emailDomainMatch (cs : List Char) : Bool :=
  (splitsOf cs).any (fun p =>
    match p.2 with
    | '.' :: tld =>
      !p.1.isEmpty && p.1.all domainChar && tld.length ≥ 2 && tld.all Char.isAlpha
    | _ => false)

/-- Full anchored match of the email pattern. -/
def emailMatch (s : String) : Bool :=
  (splitsOf s.toList).any (fun p =>
    match p.2 with
    | '@' :: rest => !p.1.isEmpty && p.1.all localChar && emailDomainMatch rest
    | _ => false)

/-! ## Assoc-list maps (Python dicts preserve insertion order) -/

/-- Lookup in an insertion-ordered assoc list. -/
def lookupA {β : Type} (k : String) : List (String × β) → Option β
  | [] => none
  | (k1, v) :: rest => if k1 = k then some v else lookupA k rest

/-- `m[k] = v` on an insertion-ordered dict: replace in place if the key is
present, otherwise append at the end. -/
def setA {β : Type} (k : String) (v : β) : List (String × β) → List (String × β)
  | [] => [(k, v)]
  | (k1, v1) :: rest =>
    if k1 = k then (k1, v) :: rest else (k1, v1) :: setA k v rest

/-! ## The Issue Report (validator.py, `self.issues`) -/

/-- One entry of `column_name_issues`. -/
structure ColumnNameIssue where
  column   : String
  problems : List String
deriving DecidableEq, Repr

/-- One entry of `missing_values`. -/
structure MissingInfo where
  count      : ℕ
  percentage : ℚ
deriving DecidableEq, Repr

/-- One entry of `outliers`. -/
structure OutlierInfo where
  count   : ℕ
  values  : List ℚ
  indices : List ℤ
deriving DecidableEq, Repr

/-- One entry of a `format_errors` list: row index and `str(value)`. -/
structure FormatError where
  index : ℤ
  value : String
deriving DecidableEq, Repr

/-- One entry of `type_errors`. -/
structure TypeErrorInfo where
  issue  : String
  values : List String
deriving DecidableEq, Repr

/-- The six-slot Issue Report.  All six keys are always present — the record
is created with every slot at its empty default in `DataValidator.__init__`. -/
structure Issues where
  missing_values     : List (String × MissingInfo)
  duplicates         : List (List Cell)
  type_errors        : List (String × TypeErrorInfo)
  outliers           : List (String × OutlierInfo)
  format_errors      : List (String × List FormatError)
  column_name_issues : List ColumnNameIssue
deriving DecidableEq, Repr

/-- The empty Issue Report built by `DataValidator.__init__`. -/
def emptyIssues : Issues :=
  { missing_values := [], duplicates := [], type_errors := [],
    outliers := [], format_errors := [], column_name_issues := [] }

/-! ## DataValidator (validator.py) -/

namespace DataValidator

/-- The problem flags of `check_column_names` for one column name, in source
order: spaces, special characters (after removing spaces), inconsistent
casing. -/
def columnNameProblems (c : String) : List String :=
  (if c.toList.any (· = ' ') then ["contains spaces"] else []) ++
  (if (c.toList.filter (· ≠ ' ')).any (fun ch => !isWordChar ch) then
    ["contains special characters"] else []) ++
  (if c ≠ pyLower c ∧ c ≠ pyUpper c ∧ c ≠ pyTitle c then
    ["inconsistent casing"] else [])

/-- The per-column findings of `check_column_names`: only columns with at
least one problem are recorded. -/
def columnNameFindings (df : DataFrame) : List ColumnNameIssue :=
  df.colNames.filterMap (fun c =>
    let ps := columnNameProblems c
    if ps.isEmpty then none else some ⟨c, ps⟩)

/-- `check_column_names`: writes the findings into the report only when the
list is nonempty (otherwise the slot is left untouched). -/
def check_column_names (df : DataFrame) (I : Issues) : Issues :=
  let issues := columnNameFindings df
  if issues.isEmpty then I else { I with column_name_issues := issues }

/-- The per-column findings of `check_missing_values`: null count and
percentage (rounded to 2 decimals) for each column with at least one null. -/
def missingFindings (df : DataFrame) : List (String × MissingInfo) :=
  (df.columns).filterMap (fun c =>
    let nulls := ((df.colCells c.1).filter (· = Cell.null)).length
    if nulls > 0 then
      some (c.2.1, ⟨nulls, round2 ((nulls : ℚ) / (df.nRows : ℚ) * 100)⟩)
    else none)

/-- `check_missing_values`: dict-sets each finding into `missing_values`. -/
def check_missing_values (df : DataFrame) (I : Issues) : Issues :=
  { I with missing_values :=
      (missingFindings df).foldl (fun m kv => setA kv.1 kv.2 m) I.missing_values }

/-- The rows selected by `df.duplicated(keep=False)`: every row whose cell
tuple occurs at least twice, in row order, as full value snapshots
(`to_dict('records')` drops the index). -/
def duplicateRecords (df : DataFrame) : List (List Cell) :=
  (df.rows.filter (fun r =>
    2 ≤ (df.rows.filter (fun r2 => r2.2 = r.2)).length)).map (fun r => r.2)

/-- `check_duplicates`: writes the snapshot list only when nonempty. -/
def check_duplicates (df : DataFrame) (I : Issues) : Issues :=
  let dups := duplicateRecords df
  if dups.isEmpty then I else { I with duplicates := dups }

end DataValidator

/-! ## Z-scores

The source computes `z = |value - mean| / std` with `std = sqrt(variance)`
(pandas `std`, `ddof=1`) and compares `z > threshold` (validator) or
`z <= threshold` (cleaner's keep-filter).  To keep the embedding executable
the comparison is carried out in `ℚ` on squares; `zGtB_correct` proves the
rational form pointwise equal to the `Real.sqrt` form whenever the variance
is positive (the only case in which the source reaches the comparison with a
real-number z-score — zero variance is guarded, and fewer than two values
make the std NaN, handled explicitly at each call site). -/

/-- Decidable form of `|v - m| / sqrt var > t`. -/
def zGtB (v m var t : ℚ) : Bool :=
  if 0 ≤ t then decide ((v - m) ^ 2 > t ^ 2 * var) else true

/-- Decidable form of `|v - m| / sqrt var <= t` (the cleaner's keep-filter). -/
def zLeB (v m var t : ℚ) : Bool := !zGtB v m var t

namespace DataValidator

/-- Is the dtype selected by `select_dtypes(include=[np.number])`? -/
def isNumericDtype : Dtype → Bool
  | .int64 => true
  | .float64 => true
  | _ => false

/-- The finding of `check_numeric_outliers` for one numeric column, given its
label/cell pairs: skip (`none`) when more than half the entries are null or
when the standard deviation is exactly zero; otherwise flag the rows whose
z-score exceeds the threshold (a NaN z-score — null value, or NaN std from
fewer than two non-null values — never exceeds it).  Returns the flagged
(value, index) data when nonempty. -/
def outlierFinding (nRows : ℕ) (t : ℚ) (cells : List (ℤ × Cell)) :
    Option OutlierInfo :=
  let nulls := (cells.filter (fun c => c.2 = Cell.null)).length
  if nulls * 2 > nRows then none
  else
    let vals := cells.filterMap (fun c => cellNum c.2)
    let n := vals.length
    let m := ((meanQ vals).getD 0)
    let var := varQ vals
    if 2 ≤ n ∧ var = 0 then none
    else
      let flagged := cells.filter (fun c =>
        match cellNum c.2 with
        | some v => 2 ≤ n && zGtB v m var t
        | none => false)
      if flagged.isEmpty then none
      else some ⟨flagged.length,
                 flagged.filterMap (fun c => cellNum c.2),
                 flagged.map (fun c => c.1)⟩

/-- The label/cell pairs of column `i`, in row order. -/
def colPairs (df : DataFrame) (i : ℕ) : List (ℤ × Cell) :=
  df.rows.map (fun r => (r.1, (r.2.get? i).getD Cell.null))

/-- The findings of `check_numeric_outliers` over the numeric columns. -/
def outlierFindings (df : DataFrame) (t : ℚ) : List (String × OutlierInfo) :=
  df.columns.filterMap (fun c =>
    if isNumericDtype c.2.2 then
      (outlierFinding df.nRows t (colPairs df c.1)).map (fun o => (c.2.1, o))
    else none)

/-- `check_numeric_outliers(threshold=3.0)`: dict-sets each nonempty finding
into the `outliers` slot. -/
def check_numeric_outliers (df : DataFrame) (t : ℚ) (I : Issues) : Issues :=
  { I with outliers :=
      (outlierFindings df t).foldl (fun m kv => setA kv.1 kv.2 m) I.outliers }

/-- The invalid entries of `check_email_format` for one column: every non-null
value whose string form fails the email pattern, with its row index. -/
def emailInvalids (cells : List (ℤ × Cell)) : List FormatError :=
  cells.filterMap (fun c =>
    match c.2 with
    | .null => none
    | v => if emailMatch (cellToStr v) then none else some ⟨c.1, cellToStr v⟩)

/-- `check_email_format`: for each column whose lowercased name contains
"email", dict-sets the invalid entries (replacing any previous list) when
nonempty. -/
def check_email_format (df : DataFrame) (I : Issues) : Issues :=
  { I with format_errors :=
      df.columns.foldl (fun m c =>
        if strContains (pyLower c.2.1) "email" then
          let invalid := emailInvalids (colPairs df c.1)
          if invalid.isEmpty then m else setA c.2.1 invalid m
        else m) I.format_errors }

/-- The invalid entries of `check_date_format` for one column: every non-null
value on which `pd.to_datetime` raises, with its row index. -/
def dateInvalids (cells : List (ℤ × Cell)) : List FormatError :=
  cells.filterMap (fun c =>
    match c.2 with
    | .null => none
    | v => if cellParsesAsDate v then none else some ⟨c.1, cellToStr v⟩)

/-- `check_date_format`: for each column whose lowercased name contains
"date", when the invalid list is nonempty, initialise the column's
format-error list to `[]` if absent and then EXTEND it — an append to whatever
the slot already holds. -/
def check_date_format (df : DataFrame) (I : Issues) : Issues :=
  { I with format_errors :=
      df.columns.foldl (fun m c =>
        if strContains (pyLower c.2.1) "date" then
          let invalid := dateInvalids (colPairs df c.1)
          if invalid.isEmpty then m
          else setA c.2.1 ((lookupA c.2.1 m).getD [] ++ invalid) m
        else m) I.format_errors }

/-- The recognised boolean literal forms. -/
def bool_vals : List String :=
  ["True", "False", "true", "false", "0", "1", "yes", "no", "Yes", "No"]

/-- The distinct string forms of the non-null values of a column, in order of
first appearance (`Series.unique` on `astype(str)`). -/
def distinctStrForms (cells : List (ℤ × Cell)) : List String :=
  ((cells.filterMap (fun c =>
    match c.2 with
    | .null => none
    | v => some (cellToStr v)))).dedup

/-- `check_boolean_consistency`: for object-typed columns whose distinct
non-null string forms all belong to the recognised boolean literals and number
at least two, dict-set an "Inconsistent boolean format" type error listing the
forms. -/
def check_boolean_consistency (df : DataFrame) (I : Issues) : Issues :=
  { I with type_errors :=
      df.columns.foldl (fun m c =>
        if c.2.2 = Dtype.object then
          let forms := distinctStrForms (colPairs df c.1)
          if forms.all (· ∈ bool_vals) && forms.length ≥ 2 then
            setA c.2.1 ⟨"Inconsistent boolean format", forms⟩ m
          else m
        else m) I.type_errors }

/-- The state of a `DataValidator` instance: the dataset reference and the
accumulating Issue Report. -/
structure State where
  df     : DataFrame
  issues : Issues
deriving DecidableEq, Repr

/-- `DataValidator.__init__`: store the dataset and the empty report. -/
def init (df : DataFrame) : State := ⟨df, emptyIssues⟩

/-- `validate_all`: run all checks, in the fixed source order, accumulating
into the instance's Issue Report; the report is returned (and kept as the
instance state). -/
def validate_all (s : State) : State :=
  let I := s.issues
  let I := check_column_names s.df I
  let I := check_missing_values s.df I
  let I := check_duplicates s.df I
  let I := check_numeric_outliers s.df 3 I
  let I := check_email_format s.df I
  let I := check_date_format s.df I
  let I := check_boolean_consistency s.df I
  ⟨s.df, I⟩

/-- One run of `validate_all` on a freshly constructed validator. -/
def validateAllFresh (df : DataFrame) : Issues :=
  (validate_all (init df)).issues

end DataValidator

/-! ## DataCleaner (cleaner.py) -/

namespace DataCleaner

/-- The cleaning-log entries, structurally (the source renders each as one
f-string; the numeric fill value is logged through the 2-decimal format, with
`none` standing for a NaN mean/median printed as `nan`). -/
inductive LogEntry where
  | removedDuplicates (count : ℕ)
  | filledMean   (column : String) (count : ℕ) (value2dp : Option ℚ)
  | filledMedian (column : String) (count : ℕ) (value2dp : Option ℚ)
  | filledMode   (column : String) (count : ℕ) (value : Cell)
  | droppedMissing (column : String) (count : ℕ)
  | filledLiteral (column : String) (count : ℕ) (value : Cell)
  | removedOutliers (column : String) (count : ℕ)
  | fixedInvalid (column : String) (count : ℕ)
deriving DecidableEq, Repr

/-- The state of a `DataCleaner`: the caller's dataset as passed to the
constructor, the private working copy (`self.df = df.copy()`), and the
cleaning log.  `original` stands for the caller-owned object: the source
deep-copies at construction, so no operation can write through to it; the
embedding records it so that theorems can state exactly that. -/
structure State where
  original     : DataFrame
  df           : DataFrame
  cleaning_log : List LogEntry
deriving DecidableEq, Repr

/-- `DataCleaner.__init__`: copy the dataset, start an empty log. -/
def init (df : DataFrame) : State := ⟨df, df, []⟩

/-- `keep` argument of `drop_duplicates`. -/
inductive Keep where
  | first
  | last
deriving DecidableEq, Repr

/-- `drop_duplicates(keep='first')` on the rows: keep a row when its cell
tuple has not been seen earlier; `seen` accumulates the tuples kept so far. -/
def dropDupsAux (seen : List (List Cell)) :
    List (ℤ × List Cell) → List (ℤ × List Cell)
  | [] => []
  | r :: rs =>
    if r.2 ∈ seen then dropDupsAux seen rs
    else r :: dropDupsAux (r.2 :: seen) rs

/-- `drop_duplicates(keep=...)`: first keeps the first occurrence of each
duplicated cell tuple, last keeps the last (both preserve relative order). -/
def dropDuplicates (keep : Keep) (rows : List (ℤ × List Cell)) :
    List (ℤ × List Cell) :=
  match keep with
  | .first => dropDupsAux [] rows
  | .last => (dropDupsAux [] rows.reverse).reverse

/-- `remove_duplicates(keep)`: drop duplicate rows on the working copy; log
the removed count only when positive. -/
def remove_duplicates (keep : Keep) (s : State) : State :=
  let before := s.df.rows.length
  let rows := dropDuplicates keep s.df.rows
  let removed := before - rows.length
  { s with df := { s.df with rows := rows },
           cleaning_log := s.cleaning_log ++
             (if removed > 0 then [.removedDuplicates removed] else []) }

/-- A fill strategy entry (the source dispatches on the strings `mean`,
`median`, `mode`, `drop`; any other value is a literal fill). -/
inductive FillMethod where
  | mean
  | median
  | mode
  | drop
  | literal (value : Cell)
deriving DecidableEq, Repr

/-- Position of a column name (first match) in the dataframe. -/
def colPos (df : DataFrame) (col : String) : ℕ :=
  df.colNames.findIdx (· = col)

/-- Replace the null cells of column `i` with `v` in every row. -/
def fillColumn (df : DataFrame) (i : ℕ) (v : Cell) : DataFrame :=
  { df with rows := df.rows.map (fun r =>
      (r.1, r.2.modify (fun c => if c = Cell.null then v else c) i)) }

/-- The cells of a column as label/cell pairs, via `colPairs` of the
validator's module (the formula is shared). -/
def cellsOf (df : DataFrame) (col : String) : List Cell :=
  df.colCells (colPos df col)

/-- The most frequent non-null value of a column (`Series.mode()[0]`), with
ties resolved toward the value whose first occurrence is earliest among the
most frequent (pandas sorts the modes; for the homogeneous columns of the data
model the earliest-first choice coincides on every theorem below, none of
which touches a tie). `none` when there is no non-null value. -/
def modeOf (cells : List Cell) : Option Cell :=
  let vals := cells.filter (· ≠ Cell.null)
  let distinct := vals.dedup
  let counted := distinct.map (fun v => (v, (vals.filter (· = v)).length))
  match counted with
  | [] => none
  | c0 :: rest => some (rest.foldl (fun best c =>
      if c.2 > best.2 then c else best) c0).1

/-- One step of `fill_missing_values` for a single (column, method) pair. -/
def fillStep (s : State) (col : String) (method : FillMethod) : State :=
  if col ∉ s.df.colNames then s
  else
    let i := colPos s.df col
    let cells := s.df.colCells i
    let missing := (cells.filter (· = Cell.null)).length
    if missing = 0 then s
    else
      match method with
      | .mean =>
        let fv := meanQ (cells.filterMap cellNum)
        { s with df := match fv with
                       | some q => fillColumn s.df i (.num q)
                       | none => s.df,
                 cleaning_log := s.cleaning_log ++
                   [.filledMean col missing (fv.map round2)] }
      | .median =>
        let fv := medianQ (cells.filterMap cellNum)
        { s with df := match fv with
                       | some q => fillColumn s.df i (.num q)
                       | none => s.df,
                 cleaning_log := s.cleaning_log ++
                   [.filledMedian col missing (fv.map round2)] }
      | .mode =>
        let fv := (modeOf cells).getD (.str "Unknown")
        { s with df := fillColumn s.df i fv,
                 cleaning_log := s.cleaning_log ++ [.filledMode col missing fv] }
      | .drop =>
        let rows := s.df.rows.filter (fun r =>
          ((r.2.get? i).getD Cell.null) ≠ Cell.null)
        let removed := s.df.rows.length - rows.length
        { s with df := { s.df with rows := rows },
                 cleaning_log := s.cleaning_log ++ [.droppedMissing col removed] }
      | .literal v =>
        { s with df := fillColumn s.df i v,
                 cleaning_log := s.cleaning_log ++ [.filledLiteral col missing v] }

/-- `fill_missing_values(strategy)`: process the strategy entries in order
(unknown columns and columns with no nulls are silently skipped inside
`fillStep`). -/
def fill_missing_values (strategy : List (String × FillMethod)) (s : State) :
    State :=
  strategy.foldl (fun st e => fillStep st e.1 e.2) s

/-- `remove_outliers(column, threshold=3.0)`: silently return when the column
is absent; return when the standard deviation is exactly zero (at least two
non-null values with zero variance — with fewer than two, the pandas std is
NaN, `NaN == 0` is false, and the filter proceeds with NaN z-scores that fail
the `<=` keep-comparison, so every row is dropped); otherwise keep the rows
whose z-score is at most the threshold (null values have NaN z-scores and are
dropped as well); log the removed count when positive. -/
def remove_outliers (col : String) (t : ℚ) (s : State) : State :=
  if col ∉ s.df.colNames then s
  else
    let i := colPos s.df col
    let before := s.df.rows.length
    let vals := (s.df.colCells i).filterMap cellNum
    let n := vals.length
    let m := (meanQ vals).getD 0
    let var := varQ vals
    if 2 ≤ n ∧ var = 0 then s
    else
      let rows := s.df.rows.filter (fun r =>
        match cellNum ((r.2.get? i).getD Cell.null) with
        | some v => 2 ≤ n && zLeB v m var t
        | none => false)
      let removed := before - rows.length
      { s with df := { s.df with rows := rows },
               cleaning_log := s.cleaning_log ++
                 (if removed > 0 then [.removedOutliers col removed] else []) }

/-- `df.at[idx, col] = v`: when the column exists, set the cell of every row
labelled `idx` at the column's position; when it does not, enlarge — append a
new object column holding `v` at the labelled row and null elsewhere. -/
def atSet (df : DataFrame) (idx : ℤ) (col : String) (v : Cell) : DataFrame :=
  if col ∈ df.colNames then
    let p := colPos df col
    { df with rows := df.rows.map (fun r =>
        if r.1 = idx then (r.1, r.2.set p v) else r) }
  else
    { colNames := df.colNames ++ [col],
      dtypes := df.dtypes ++ [.object],
      rows := df.rows.map (fun r =>
        (r.1, r.2 ++ [if r.1 = idx then v else Cell.null])) }

/-- The loop of `fix_invalid_values`: for each index in order, when it is
present in the working copy's index, write `fix_value` through `.at` and count
it. -/
def fixLoop (col : String) (v : Cell) (df : DataFrame) (count : ℕ) :
    List ℤ → DataFrame × ℕ
  | [] => (df, count)
  | idx :: rest =>
    if idx ∈ df.labels then fixLoop col v (atSet df idx col v) (count + 1) rest
    else fixLoop col v df count rest

/-- `fix_invalid_values(column, invalid_indices, fix_value)`: run the loop,
then log the fixed count when positive. -/
def fix_invalid_values (col : String) (invalid_indices : List ℤ)
    (fix_value : Cell) (s : State) : State :=
  let r := fixLoop col fix_value s.df 0 invalid_indices
  { s with df := r.1,
           cleaning_log := s.cleaning_log ++
             (if r.2 > 0 then [.fixedInvalid col r.2] else []) }

/-- The operations of the Cleaner, as a syntax of calls, for stating the
frame property over arbitrary call sequences. -/
inductive Op where
  | removeDuplicates (keep : Keep)
  | fillMissingValues (strategy : List (String × FillMethod))
  | removeOutliers (column : String) (threshold : ℚ)
  | fixInvalidValues (column : String) (indices : List ℤ) (fixValue : Cell)
deriving DecidableEq, Repr

/-- Dispatch one call. -/
def applyOp (s : State) : Op → State
  | .removeDuplicates keep => remove_duplicates keep s
  | .fillMissingValues strategy => fill_missing_values strategy s
  | .removeOutliers col t => remove_outliers col t s
  | .fixInvalidValues col idxs v => fix_invalid_values col idxs v s

/-- Apply a call sequence in order. -/
def applyOps (s : State) (ops : List Op) : State := ops.foldl applyOp s

end DataCleaner

/-! ## TableauPrep (tableau_prep.py) -/

namespace TableauPrep

/-- The prep-log entries, structurally. -/
inductive PrepEntry where
  | standardizedColumns (count : ℕ)
  | convertedTypes (count : ℕ)
  | typeChange (column oldType newType : String)
deriving DecidableEq, Repr

/-- The state of a `TableauPrep` instance: the caller's dataset, the private
working copy (`self.df = df.copy()`), and the prep log. -/
structure State where
  original : DataFrame
  df       : DataFrame
  prep_log : List PrepEntry
deriving DecidableEq, Repr

/-- `TableauPrep.__init__`. -/
def init (df : DataFrame) : State := ⟨df, df, []⟩

/-- Collapse runs of underscores to one (`re.sub('_+', '_', ...)`). -/
def collapseUnderscores : List Char → List Char
  | [] => []
  | c :: cs =>
    match collapseUnderscores cs with
    | [] => [c]
    | d :: ds => if c = '_' ∧ d = '_' then d :: ds else c :: d :: ds

/-- `str.strip('_')`. -/
def stripUnderscores (cs : List Char) : List Char :=
  ((cs.dropWhile (· = '_')).reverse.dropWhile (· = '_')).reverse

/-- The per-name transformation of `clean_column_names`: replace characters
outside `[a-zA-Z0-9_]` with `_`, collapse consecutive underscores, strip
leading/trailing underscores, then capitalize each underscore-separated
segment and rejoin with `_`. -/
def cleanName (col : String) : String :=
  let step1 := col.toList.map (fun c => if isWordChar c then c else '_')
  let step2 := collapseUnderscores step1
  let step3 := stripUnderscores step2
  String.intercalate "_"
    (((splitOnChar '_' step3).map (fun w => pyCapitalize w.asString)))

/-- `clean_column_names`: rename every column through `cleanName` (one atomic
renaming) and log the number of columns processed. -/
def clean_column_names (s : State) : State :=
  { s with df := { s.df with colNames := s.df.colNames.map cleanName },
           prep_log := s.prep_log ++
             [.standardizedColumns s.df.colNames.length] }

/-- Printed name of a dtype (as `str(df[col].dtype)` renders it). -/
def dtypeName : Dtype → String
  | .int64 => "int64"
  | .float64 => "float64"
  | .object => "object"
  | .datetime64 => "datetime64[ns]"
  | .boolean => "bool"

/-- The literal→boolean table of `enforce_data_types`. -/
def boolTable (s : String) : Option Bool :=
  if s = "True" ∨ s = "true" ∨ s = "1" ∨ s = "yes" ∨ s = "Yes" then some true
  else if s = "False" ∨ s = "false" ∨ s = "0" ∨ s = "no" ∨ s = "No" then
    some false
  else none

/-- Replace the cells of column `i` pointwise and set its dtype. -/
def mapColumn (df : DataFrame) (i : ℕ) (dt : Dtype) (f : Cell → Cell) :
    DataFrame :=
  { df with dtypes := df.dtypes.set i dt,
            rows := df.rows.map (fun r => (r.1, r.2.modify f i)) }

/-- `pd.to_datetime(col, errors='coerce')` on one cell: keep nulls, parse
strings (unparsable → null/NaT), pass numbers and datetimes through as
timestamps, coerce everything else to null.  The abstract timestamp of a
parsed string is left at 0: no theorem below reads it. -/
def coerceDatetime : Cell → Cell
  | .null => .null
  | .str s => if parseDateStr s then .date 0 else .null
  | .date d => .date d
  | .num _ => .date 0
  | .bool _ => .null

/-- `col.map(bool_map)` on one cell: values found in the table map to their
boolean, everything else (including nulls) maps to null. -/
def coerceBool : Cell → Cell
  | .null => .null
  | c => match boolTable (cellToStr c) with
         | some b => .bool b
         | none => .null

/-- `pd.to_numeric(col, errors='coerce')` on one cell. -/
def coerceNumeric : Cell → Cell
  | c => match cellToNumeric c with
         | some q => .num q
         | none => .null

/-- The per-column body of `enforce_data_types`: the three independent
attempts, each reading the column's *current* dtype, with the original dtype
name captured once for the log lines. -/
def enforceStep (acc : DataFrame × List PrepEntry) (i : ℕ) :
    DataFrame × List PrepEntry :=
  let df := acc.1
  let changes := acc.2
  let name := (df.colNames.get? i).getD ""
  let origType := dtypeName ((df.dtypes.get? i).getD .object)
  -- (a) textual date-named columns → datetime
  let step_a :=
    if strContains (pyLower name) "date" ∧
        (df.dtypes.get? i).getD .object = .object then
      (mapColumn df i .datetime64 coerceDatetime,
       changes ++ [PrepEntry.typeChange name origType "datetime64"])
    else (df, changes)
  let df1 := step_a.1
  let changes1 := step_a.2
  -- (b) textual columns whose distinct forms are all boolean literals
  let step_b :=
    if (df1.dtypes.get? i).getD .object = .object ∧
        (DataValidator.distinctStrForms (DataValidator.colPairs df1 i)).all
          (· ∈ DataValidator.bool_vals) then
      (mapColumn df1 i .boolean coerceBool,
       changes1 ++ [PrepEntry.typeChange name origType "boolean"])
    else (df1, changes1)
  let df2 := step_b.1
  let changes2 := step_b.2
  -- (c) still-textual columns where > 80% of all rows parse numerically
  if (df2.dtypes.get? i).getD .object = .object ∧
      5 * ((df2.colCells i).filterMap cellToNumeric).length > 4 * df2.nRows then
    (mapColumn df2 i .float64 coerceNumeric,
     changes2 ++ [PrepEntry.typeChange name origType "numeric"])
  else (df2, changes2)

/-- `enforce_data_types`: run the three attempts over every column in order,
then log the count of transitions followed by each transition line (nothing
when no transition happened). -/
def enforce_data_types (s : State) : State :=
  let r := (List.range s.df.colNames.length).foldl enforceStep (s.df, [])
  { s with df := r.1,
           prep_log := s.prep_log ++
             (if r.2.isEmpty then []
              else PrepEntry.convertedTypes r.2.length :: r.2) }

/-- The three suggestion buckets of `create_dimension_measure_guide`. -/
structure Guide where
  dimensions : List String
  measures   : List String
  dates      : List String
deriving DecidableEq, Repr

/-- Distinct non-null cell count of a column (`Series.nunique()`). -/
def nuniqueCol (df : DataFrame) (i : ℕ) : ℕ :=
  (((df.colCells i).filter (· ≠ Cell.null)).dedup).length

/-- The `unique_ratio` of a column: distinct-count over row-count, with the
explicit zero-row guard (`... if len(self.df) > 0 else 0`). -/
def uniqueFracOf (df : DataFrame) (i : ℕ) : ℚ :=
  if df.nRows > 0 then (nuniqueCol df i : ℚ) / (df.nRows : ℚ) else 0

/-- The bucket of one column: datetime columns are dates; numeric columns are
measures exactly when their distinct-count to row-count ratio exceeds 0.5
(the ratio is 0 by explicit guard when the dataset has zero rows); everything
else is a dimension. -/
def classifyStep (df : DataFrame) (g : Guide) (c : ℕ × String × Dtype) :
    Guide :=
  let uniqueFrac : ℚ := uniqueFracOf df c.1
  if c.2.2 = Dtype.datetime64 then
    { g with dates := g.dates ++ [c.2.1] }
  else if DataValidator.isNumericDtype c.2.2 then
    if uniqueFrac > 1 / 2 then { g with measures := g.measures ++ [c.2.1] }
    else { g with dimensions := g.dimensions ++ [c.2.1] }
  else
    { g with dimensions := g.dimensions ++ [c.2.1] }

/-- `create_dimension_measure_guide`: fold the classification over the
columns in order. -/
def create_dimension_measure_guide (df : DataFrame) : Guide :=
  df.columns.foldl (classifyStep df) ⟨[], [], []⟩

/-- Min/Max slot of the metadata: a number, NaN (numeric column with no
non-null values), or the `"N/A"` sentinel for non-numeric columns. -/
inductive MetaVal where
  | val (q : ℚ)
  | nan
  | na
deriving DecidableEq, Repr

/-- One row of the Metadata Table. -/
structure MetaRow where
  columnName     : String
  dataType       : String
  nullCount      : ℕ
  nullPercentage : Option ℚ
  uniqueValues   : ℕ
  sampleValues   : String
  minValue       : MetaVal
  maxValue       : MetaVal
  suggestedRole  : String
deriving DecidableEq, Repr

/-- The suggested role of one column, looked up bucket by bucket in the
source's order (dimensions, then measures, then dates, else `Unknown`). -/
def roleOf (g : Guide) (name : String) : String :=
  if name ∈ g.dimensions then "Dimension"
  else if name ∈ g.measures then "Measure"
  else if name ∈ g.dates then "Date"
  else "Unknown"

/-- `generate_metadata`: one metadata row per column, with the roles drawn
from `create_dimension_measure_guide` (the null percentage divides by the row
count: `none` models the NaN produced on a zero-row dataset). -/
def generate_metadata (df : DataFrame) : List MetaRow :=
  let g := create_dimension_measure_guide df
  df.columns.map (fun c =>
    let cells := df.colCells c.1
    let nulls := (cells.filter (· = Cell.null)).length
    let nonNull := cells.filter (· ≠ Cell.null)
    let nums := cells.filterMap cellNum
    { columnName := c.2.1,
      dataType := dtypeName c.2.2,
      nullCount := nulls,
      nullPercentage :=
        if df.nRows = 0 then none
        else some (round2 ((nulls : ℚ) / (df.nRows : ℚ) * 100)),
      uniqueValues := nuniqueCol df c.1,
      sampleValues := String.intercalate ", "
        ((nonNull.take 3).map (fun x => ((cellToStr x).toList.take 50).asString)),
      minValue :=
        if DataValidator.isNumericDtype c.2.2 then
          match nums.min? with
          | some q => .val q
          | none => .nan
        else .na,
      maxValue :=
        if DataValidator.isNumericDtype c.2.2 then
          match nums.max? with
          | some q => .val q
          | none => .nan
        else .na,
      suggestedRole := roleOf g c.2.1 })

/-- The operations of the preparer that mutate the working copy, as a syntax
of calls. -/
inductive Op where
  | cleanColumnNames
  | enforceDataTypes
deriving DecidableEq, Repr

/-- Dispatch one call. -/
def applyOp (s : State) : Op → State
  | .cleanColumnNames => clean_column_names s
  | .enforceDataTypes => enforce_data_types s

/-- Apply a call sequence in order. -/
def applyOps (s : State) (ops : List Op) : State := ops.foldl applyOp s

end TableauPrep

/-! ## Concrete datasets used by the claim-level theorems -/

/-- A one-column, one-row dataset whose column is named `date` and holds a
value `pd.to_datetime` cannot parse. -/
def dfBadDate : DataFrame :=
  ⟨["date"], [.object], [(0, [.str "not-a-date"])]⟩

/-- The six-value numeric column `[10,10,10,10,10,1000]` of the outlier
example. -/
def dfOutlier6 : DataFrame :=
  ⟨["x"], [.int64],
   [(0, [.num 10]), (1, [.num 10]), (2, [.num 10]), (3, [.num 10]),
    (4, [.num 10]), (5, [.num 1000])]⟩

/-- A zero-row dataset with one numeric and one datetime column. -/
def dfZeroRows : DataFrame :=
  ⟨["x", "d"], [.int64, .datetime64], []⟩

/-- The `[1, 2, None, 4]` column of the fill-missing example. -/
def dfMean4 : DataFrame :=
  ⟨["age"], [.float64],
   [(0, [.num 1]), (1, [.num 2]), (2, [.null]), (3, [.num 4])]⟩

/-- A numeric column `[5, 5, None]`: two equal non-null values, so the
standard deviation is exactly zero, plus a null. -/
def dfStdZero : DataFrame :=
  ⟨["x"], [.float64], [(0, [.num 5]), (1, [.num 5]), (2, [.null])]⟩

/-- A numeric column `[1, 2, None]`: nonzero standard deviation plus a
null. -/
def dfWithNull : DataFrame :=
  ⟨["x"], [.float64], [(0, [.num 1]), (1, [.num 2]), (2, [.null])]⟩

/-- A numeric column `[7, None]`: a single non-null value, so the pandas
standard deviation is NaN. -/
def dfOneVal : DataFrame :=
  ⟨["x"], [.float64], [(0, [.num 7]), (1, [.null])]⟩

/-- A two-row dataset without a column named `b`, for the `.at` enlargement
behaviour of `fix_invalid_values`. -/
def dfNoColB : DataFrame :=
  ⟨["a"], [.int64], [(0, [.num 1]), (1, [.num 2])]⟩

/-- A small dataset exercising several checks at once: a badly named boolean
column, an email column with one invalid entry, and a duplicated row. -/
def dfMixed : DataFrame :=
  ⟨["bad name", "email", "flag"], [.int64, .object, .object],
   [(0, [.num 1, .str "a@b.com", .str "yes"]),
    (1, [.num 1, .str "a@b.com", .str "yes"]),
    (2, [.num 2, .str "not-an-email", .str "No"])]⟩
/-! ## Bucket predicates (proof-side restatement of `classifyStep`)

These three decidable predicates name the branch of `classifyStep` a column
falls into; `guide_spec` below proves the fold equal to three filters over
the column list. -/

/-- The column goes to the `dates` bucket. -/
def isDateBucket (c : ℕ × String × Dtype) : Bool :=
  c.2.2 = Dtype.datetime64

/-- The column goes to the `measures` bucket. -/
def isMeasureBucket (df : DataFrame) (c : ℕ × String × Dtype) : Bool :=
  !isDateBucket c && DataValidator.isNumericDtype c.2.2 &&
    TableauPrep.uniqueFracOf df c.1 > 1 / 2

/-- The column goes to the `dimensions` bucket. -/
def isDimBucket (df : DataFrame) (c : ℕ × String × Dtype) : Bool :=
  !isDateBucket c && !isMeasureBucket df c

/-- The dataframe produced by `.at`-enlargement of `df` with a fresh column
`col`: the new column is appended with `object` dtype and holds `v` exactly
at the rows selected by `f`, null elsewhere.  Used to state what
`fix_invalid_values` builds when the named column is absent. -/
def enlargeWith (df : DataFrame) (col : String) (v : Cell) (f : ℤ → Bool) :
    DataFrame :=
  ⟨df.colNames ++ [col], df.dtypes ++ [.object],
   df.rows.map (fun r => (r.1, r.2 ++ [if f r.1 then v else Cell.null]))⟩

/-- Faithfulness of `zGtB`: for positive variance it decides exactly the
source's `|v - mean| / std > t` with `std = Real.sqrt var`. -/
theorem zGtB_correct (v m var t : ℚ) (hvar : 0 < var) :
    zGtB v m var t = true ↔ |(v : ℝ) - m| / Real.sqrt var > t := by
  have hvarR : (0 : ℝ) < (var : ℚ) := by exact_mod_cast hvar
  have hs : (0 : ℝ) < Real.sqrt var := Real.sqrt_pos.mpr hvarR
  have hsq : Real.sqrt (var : ℚ) ^ 2 = ((var : ℚ) : ℝ) := Real.sq_sqrt hvarR.le
  have habs : |(v : ℝ) - m| ^ 2 = (((v - m : ℚ) : ℚ) : ℝ) ^ 2 := by
    rw [sq_abs]; push_cast; ring
  unfold zGtB
  by_cases ht : 0 ≤ t
  · have htR : (0 : ℝ) ≤ (t : ℚ) := by exact_mod_cast ht
    simp only [ht, if_pos, decide_eq_true_eq]
    constructor
    · intro h
      have hR : ((t : ℝ)) ^ 2 * ((var : ℚ) : ℝ) < (((v - m : ℚ) : ℚ) : ℝ) ^ 2 := by
        exact_mod_cast h
      rw [gt_iff_lt, lt_div_iff₀ hs]
      nlinarith [abs_nonneg ((v : ℝ) - (m : ℚ)), mul_nonneg htR hs.le]
    · intro h
      rw [gt_iff_lt, lt_div_iff₀ hs] at h
      have hR : ((t : ℝ)) ^ 2 * ((var : ℚ) : ℝ) < (((v - m : ℚ) : ℚ) : ℝ) ^ 2 := by
        nlinarith [abs_nonneg ((v : ℝ) - (m : ℚ)), mul_nonneg htR hs.le]
      exact_mod_cast hR
  · have htR : ((t : ℚ) : ℝ) < 0 := by exact_mod_cast lt_of_not_le ht
    simp only [ht, if_neg, not_false_iff]
    constructor
    · intro _
      exact lt_of_lt_of_le htR (div_nonneg (abs_nonneg _) hs.le)
    · intro _
      trivial

/-- The variance is the zero of the source's `std == 0` guard: for a list with
at least two elements, `Real.sqrt (varQ l) = 0` exactly when `varQ l = 0`
(variances are nonnegative). -/
theorem sqrt_varQ_eq_zero_iff (l : List ℚ) :
    Real.sqrt (varQ l) = 0 ↔ (varQ l : ℝ) ≤ 0 := Real.sqrt_eq_zero'.trans
  (by constructor <;> intro h <;> simpa using h)

/-! ## Claim C1 -/

/-- C1 (code bug exhibited): running `validate_all` twice on the same
`DataValidator` instance is NOT identical to running it once — on a dataset
whose `date` column holds one unparsable value, the second run appends the
same invalid-date finding again to the already-populated `format_errors`
slot (the `extend` in `check_date_format` re-extends state surviving from the
first run), so the Issue Report differs and the first run's report is mutated
afterwards.  This contradicts the spec's determinism/no-hidden-state property
(§8) and its built-once, never-mutated Issue Report lifecycle (§3). -/
theorem C1_second_run_differs :
    (DataValidator.validate_all
        (DataValidator.validate_all (DataValidator.init dfBadDate))).issues ≠
      (DataValidator.validate_all (DataValidator.init dfBadDate)).issues := by
  decide

/-! ## Claim C2 -/

/-- Helper: an `if` on the impossible equation `Cell.num q = Cell.null`
always takes the else branch. -/
lemma ite_num_null {α : Type} (q : ℚ) (a b : α) :
    (if Cell.num q = Cell.null then a else b) = b :=
  if_neg (fun h => Cell.noConfusion h)

/-- C2 (counterexample to the claim as stated): on `[10,10,10,10,10,1000]`
the outlier check with threshold 3.0 flags NOTHING — the `outliers` slot
stays empty, not "exactly one outlier".  With six values the largest
possible z-score is 5/√6 ≈ 2.04, below 3. -/
theorem C2_threshold3_flags_nothing :
    (DataValidator.check_numeric_outliers dfOutlier6 3 emptyIssues).outliers
      = [] := by
  have hp : DataValidator.colPairs dfOutlier6 0 =
      [(0, .num 10), (1, .num 10), (2, .num 10), (3, .num 10), (4, .num 10),
       (5, .num 1000)] := by decide
  have hm : meanQ [10, 10, 10, 10, 10, 1000] = some 175 := by norm_num [meanQ]
  have hv : varQ [10, 10, 10, 10, 10, 1000] = 163350 := by
    norm_num [varQ, meanQ]
  have hcols : dfOutlier6.columns = [(0, "x", Dtype.int64)] := by decide
  have hn : dfOutlier6.nRows = 6 := by decide
  simp only [DataValidator.check_numeric_outliers,
    DataValidator.outlierFindings, hcols, hn,
    List.filterMap_cons, List.filterMap_nil, DataValidator.isNumericDtype,
    DataValidator.outlierFinding, hp, hm, hv, cellNum,
    List.filter_cons, List.filter_nil, List.length_cons, List.length_nil,
    Option.getD_some, zGtB, decide_eq_true_eq, ite_num_null, emptyIssues]
  norm_num [decide_eq_true_eq, Bool.and_eq_true]

/-- C2 (amended): on `[10,10,10,10,10,1000]` the outlier check — scoring each
value as `|value − mean| / std` against the threshold, per
`zGtB`/`zGtB_correct` — flags no value at the default threshold 3.0 (every
squared deviation is at most 3² × variance), whereas at threshold 2.0 it
flags exactly one outlier, the value 1000, at row index 5. -/
theorem C2_amended :
    (DataValidator.check_numeric_outliers dfOutlier6 3 emptyIssues).outliers
        = [] ∧
    (DataValidator.check_numeric_outliers dfOutlier6 2 emptyIssues).outliers
        = [("x", ⟨1, [1000], [5]⟩)] := by
  have hp : DataValidator.colPairs dfOutlier6 0 =
      [(0, .num 10), (1, .num 10), (2, .num 10), (3, .num 10), (4, .num 10),
       (5, .num 1000)] := by decide
  have hm : meanQ [10, 10, 10, 10, 10, 1000] = some 175 := by norm_num [meanQ]
  have hv : varQ [10, 10, 10, 10, 10, 1000] = 163350 := by
    norm_num [varQ, meanQ]
  have hcols : dfOutlier6.columns = [(0, "x", Dtype.int64)] := by decide
  have hn : dfOutlier6.nRows = 6 := by decide
  refine ⟨?_, ?_⟩ <;>
  · simp only [DataValidator.check_numeric_outliers,
      DataValidator.outlierFindings, hcols, hn,
      List.filterMap_cons, List.filterMap_nil, DataValidator.isNumericDtype,
      DataValidator.outlierFinding, hp, hm, hv, cellNum,
      List.filter_cons, List.filter_nil, List.length_cons, List.length_nil,
      Option.getD_some, zGtB, decide_eq_true_eq, ite_num_null, emptyIssues]
    norm_num [decide_eq_true_eq, Bool.and_eq_true, setA]
    all_goals decide

/-- Folding `classifyStep` over a column list appends, to each bucket of the
accumulator, exactly the names of the columns its branch selects. -/
lemma classify_foldl (df : DataFrame) (l : List (ℕ × String × Dtype)) :
    ∀ g : TableauPrep.Guide,
      l.foldl (TableauPrep.classifyStep df) g =
        ⟨g.dimensions ++ (l.filter (isDimBucket df)).map (fun c => c.2.1),
         g.measures ++ (l.filter (isMeasureBucket df)).map (fun c => c.2.1),
         g.dates ++ (l.filter isDateBucket).map (fun c => c.2.1)⟩ := by
  induction l with
  | nil => intro g; simp
  | cons c l ih =>
    intro g
    rw [List.foldl_cons, ih]
    by_cases hd : c.2.2 = Dtype.datetime64
    · have h1 : isDateBucket c = true := by simp [isDateBucket, hd]
      have h2 : isMeasureBucket df c = false := by simp [isMeasureBucket, h1]
      have h3 : isDimBucket df c = false := by simp [isDimBucket, h1]
      simp [TableauPrep.classifyStep, hd, List.filter_cons, h1, h2, h3]
    · by_cases hnum : DataValidator.isNumericDtype c.2.2 = true
      · by_cases hfrac : TableauPrep.uniqueFracOf df c.1 > 1 / 2
        · have h1 : isDateBucket c = false := by simp [isDateBucket, hd]
          have h2 : isMeasureBucket df c = true := by
            simp [isMeasureBucket, h1, hnum]
            rw [← one_div]
            exact hfrac
          have h3 : isDimBucket df c = false := by simp [isDimBucket, h1, h2]
          simp only [TableauPrep.classifyStep, if_neg hd, hnum, if_true,
            if_pos hfrac, List.filter_cons, h1, h2, h3]
          simp [List.append_assoc]
        · have h1 : isDateBucket c = false := by simp [isDateBucket, hd]
          have h2 : isMeasureBucket df c = false := by
            simp [isMeasureBucket, h1, hnum]
            rw [← one_div]
            exact le_of_not_lt hfrac
          have h3 : isDimBucket df c = true := by simp [isDimBucket, h1, h2]
          simp only [TableauPrep.classifyStep, if_neg hd, hnum, if_true,
            if_neg hfrac, List.filter_cons, h1, h2, h3]
          simp [List.append_assoc]
      · have h1 : isDateBucket c = false := by simp [isDateBucket, hd]
        have h2 : isMeasureBucket df c = false := by
          simp [isMeasureBucket, hnum]
        have h3 : isDimBucket df c = true := by simp [isDimBucket, h1, h2]
        have hnum2 : DataValidator.isNumericDtype c.2.2 = false := by
          cases hb : DataValidator.isNumericDtype c.2.2
          · rfl
          · exact absurd hb hnum
        simp only [TableauPrep.classifyStep, if_neg hd, hnum2,
          List.filter_cons, h1, h2, h3]
        simp [List.append_assoc]

/-- `create_dimension_measure_guide` equals three filters over the column
list: one per bucket predicate. -/
lemma guide_spec (df : DataFrame) :
    TableauPrep.create_dimension_measure_guide df =
      ⟨(df.columns.filter (isDimBucket df)).map (fun c => c.2.1),
       (df.columns.filter (isMeasureBucket df)).map (fun c => c.2.1),
       (df.columns.filter isDateBucket).map (fun c => c.2.1)⟩ := by
  rw [TableauPrep.create_dimension_measure_guide, classify_foldl]
  simp

/-- Every column satisfies exactly one bucket predicate; in particular at
least one. -/
lemma bucket_total (df : DataFrame) (c : ℕ × String × Dtype) :
    isDimBucket df c = true ∨ isMeasureBucket df c = true ∨
      isDateBucket c = true := by
  cases h1 : isDateBucket c
  · cases h2 : isMeasureBucket df c
    · left; simp [isDimBucket, h1, h2]
    · right; left; rfl
  · right; right; rfl

/-- Every column's name lands in one of the three buckets of the guide. -/
lemma column_in_guide (df : DataFrame) (c : ℕ × String × Dtype)
    (hc : c ∈ df.columns) :
    c.2.1 ∈ (TableauPrep.create_dimension_measure_guide df).dimensions ∨
    c.2.1 ∈ (TableauPrep.create_dimension_measure_guide df).measures ∨
    c.2.1 ∈ (TableauPrep.create_dimension_measure_guide df).dates := by
  rw [guide_spec]
  rcases bucket_total df c with h | h | h
  · exact Or.inl (List.mem_map.mpr ⟨c, List.mem_filter.mpr ⟨hc, h⟩, rfl⟩)
  · exact Or.inr (Or.inl (List.mem_map.mpr ⟨c, List.mem_filter.mpr ⟨hc, h⟩, rfl⟩))
  · exact Or.inr (Or.inr (List.mem_map.mpr ⟨c, List.mem_filter.mpr ⟨hc, h⟩, rfl⟩))

/-- C10: every row of the Metadata Table built by `generate_metadata` carries
a `Suggested_Role` of `Dimension`, `Measure` or `Date` — never `Unknown` —
because the buckets of `create_dimension_measure_guide` cover the column set
(`column_in_guide`). -/
theorem C10_no_unknown_role (df : DataFrame) :
    ∀ row ∈ TableauPrep.generate_metadata df,
      row.suggestedRole = "Dimension" ∨ row.suggestedRole = "Measure" ∨
        row.suggestedRole = "Date" := by
  intro row hrow
  unfold TableauPrep.generate_metadata at hrow
  rw [List.mem_map] at hrow
  obtain ⟨c, hc, rfl⟩ := hrow
  have hmem := column_in_guide df c hc
  show TableauPrep.roleOf _ _ = _ ∨ TableauPrep.roleOf _ _ = _ ∨
    TableauPrep.roleOf _ _ = _
  unfold TableauPrep.roleOf
  split_ifs with h1 h2 h3 <;> tauto

/-- For a well-formed dataframe the column triples are one per name. -/
lemma columns_length (df : DataFrame) (hwf : df.WF) :
    df.columns.length = df.colNames.length := by
  simp [DataFrame.columns, hwf.1]

/-- C3 (counterexample to the claim as stated): a zero-row dataset with one
`int64` and one `datetime64` column does NOT get three empty buckets —
`classify_columns` still classifies every column (`x` to dimensions, `d` to
dates); only `measures` is empty. -/
theorem C3_counterexample :
    TableauPrep.create_dimension_measure_guide dfZeroRows ≠ ⟨[], [], []⟩ := by
  have hcols : dfZeroRows.columns =
      [(0, "x", Dtype.int64), (1, "d", Dtype.datetime64)] := by decide
  have hn : dfZeroRows.nRows = 0 := by decide
  have hg : TableauPrep.create_dimension_measure_guide dfZeroRows =
      ⟨["x"], [], ["d"]⟩ := by
    rw [guide_spec]
    norm_num [hcols, isDimBucket, isMeasureBucket, isDateBucket,
      TableauPrep.uniqueFracOf, hn, List.filter_cons]
    decide
  rw [hg]
  decide

/-- C3 (amended): on every well-formed zero-row dataset,
`create_dimension_measure_guide` completes with no division by zero (the
ratio is guarded to 0), `measures` is empty, every `datetime64` column goes
to `dates` and every other column to `dimensions`; all three buckets are
empty exactly when the dataset also has no columns. -/
theorem C3_amended (df : DataFrame) (hwf : df.WF) (h : df.rows = []) :
    (TableauPrep.create_dimension_measure_guide df).measures = [] ∧
    (TableauPrep.create_dimension_measure_guide df).dates =
      (df.columns.filter isDateBucket).map (fun c => c.2.1) ∧
    (TableauPrep.create_dimension_measure_guide df).dimensions =
      (df.columns.filter (fun c => !isDateBucket c)).map (fun c => c.2.1) ∧
    (TableauPrep.create_dimension_measure_guide df = ⟨[], [], []⟩ ↔
      df.colNames = []) := by
  have hfrac : ∀ i, TableauPrep.uniqueFracOf df i = 0 := by
    intro i
    simp [TableauPrep.uniqueFracOf, DataFrame.nRows, h]
  have hm : ∀ c, isMeasureBucket df c = false := by
    intro c
    simp [isMeasureBucket, hfrac]
  have hdim : ∀ c ∈ df.columns, isDimBucket df c = !isDateBucket c := by
    intro c _
    simp [isDimBucket, hm]
  have hmeas : (TableauPrep.create_dimension_measure_guide df).measures = [] := by
    rw [guide_spec]
    simp only [List.map_eq_nil_iff, List.filter_eq_nil_iff]
    intro c _
    simp [hm]
  refine ⟨hmeas, ?_, ?_, ?_⟩
  · rw [guide_spec]
  · rw [guide_spec]
    simp only
    rw [List.filter_congr hdim]
  · constructor
    · intro hempty
      have hdates := congrArg TableauPrep.Guide.dates hempty
      have hdims := congrArg TableauPrep.Guide.dimensions hempty
      rw [guide_spec] at hdates hdims
      simp only [List.map_eq_nil_iff, List.filter_eq_nil_iff] at hdates hdims
      have hnone : df.columns = [] := by
        rcases hcs : df.columns with _ | ⟨c, cs⟩
        · rfl
        · exfalso
          have hc : c ∈ df.columns := by rw [hcs]; exact List.mem_cons_self c cs
          rcases bucket_total df c with hb | hb | hb
          · exact absurd hb (by simpa using hdims c hc)
          · rw [hm c] at hb; exact Bool.false_ne_true hb
          · exact absurd hb (by simpa using hdates c hc)
      have := columns_length df hwf
      rw [hnone] at this
      exact List.length_eq_zero.mp this.symm
    · intro hnames
      have hcols : df.columns = [] := by
        simp [DataFrame.columns, hnames]
      rw [guide_spec, hcols]
      rfl

/-- Witness for `C3_amended` at the concrete zero-row dataset
`dfZeroRows`. -/
theorem C3_amended_witness :
    dfZeroRows.WF ∧ dfZeroRows.rows = [] ∧
    ((TableauPrep.create_dimension_measure_guide dfZeroRows).measures = [] ∧
     (TableauPrep.create_dimension_measure_guide dfZeroRows).dates =
       (dfZeroRows.columns.filter isDateBucket).map (fun c => c.2.1) ∧
     (TableauPrep.create_dimension_measure_guide dfZeroRows).dimensions =
       (dfZeroRows.columns.filter (fun c => !isDateBucket c)).map
         (fun c => c.2.1) ∧
     (TableauPrep.create_dimension_measure_guide dfZeroRows = ⟨[], [], []⟩ ↔
       dfZeroRows.colNames = [])) :=
  ⟨by decide, rfl, C3_amended dfZeroRows (by decide) rfl⟩

/-- Witness for `C10_no_unknown_role` at the concrete dataset `dfZeroRows`
and its first metadata row. -/
theorem C10_witness :
    (⟨"x", "int64", 0, none, 0, "", .nan, .nan, "Dimension"⟩ :
        TableauPrep.MetaRow) ∈ TableauPrep.generate_metadata dfZeroRows ∧
    ((⟨"x", "int64", 0, none, 0, "", .nan, .nan, "Dimension"⟩ :
        TableauPrep.MetaRow).suggestedRole = "Dimension" ∨
     (⟨"x", "int64", 0, none, 0, "", .nan, .nan, "Dimension"⟩ :
        TableauPrep.MetaRow).suggestedRole = "Measure" ∨
     (⟨"x", "int64", 0, none, 0, "", .nan, .nan, "Dimension"⟩ :
        TableauPrep.MetaRow).suggestedRole = "Date") := by
  have hcols : dfZeroRows.columns =
      [(0, "x", Dtype.int64), (1, "d", Dtype.datetime64)] := by decide
  have hn : dfZeroRows.nRows = 0 := by decide
  have hg : TableauPrep.create_dimension_measure_guide dfZeroRows =
      ⟨["x"], [], ["d"]⟩ := by
    rw [guide_spec]
    norm_num [hcols, isDimBucket, isMeasureBucket, isDateBucket,
      TableauPrep.uniqueFracOf, hn, List.filter_cons]
    decide
  have hmem : (⟨"x", "int64", 0, none, 0, "", .nan, .nan, "Dimension"⟩ :
      TableauPrep.MetaRow) ∈ TableauPrep.generate_metadata dfZeroRows := by
    unfold TableauPrep.generate_metadata
    rw [hg]
    decide
  exact ⟨hmem, C10_no_unknown_role dfZeroRows _ hmem⟩

/-- Every branch of one `fill_missing_values` step leaves the constructor
argument untouched. -/
lemma fillStep_original (s : DataCleaner.State) (col : String)
    (m : DataCleaner.FillMethod) :
    (DataCleaner.fillStep s col m).original = s.original := by
  unfold DataCleaner.fillStep
  dsimp only
  split_ifs <;> first | rfl | (cases m <;> rfl)

/-- `fill_missing_values` leaves the constructor argument untouched. -/
lemma fill_missing_original (strategy : List (String × DataCleaner.FillMethod)) :
    ∀ s : DataCleaner.State,
      (DataCleaner.fill_missing_values strategy s).original = s.original := by
  induction strategy with
  | nil => intro s; rfl
  | cons e rest ih =>
    intro s
    show (DataCleaner.fill_missing_values rest
      (DataCleaner.fillStep s e.1 e.2)).original = s.original
    rw [ih, fillStep_original]

/-- Every single Cleaner call leaves the constructor argument untouched. -/
lemma cleanOp_original (op : DataCleaner.Op) (s : DataCleaner.State) :
    (DataCleaner.applyOp s op).original = s.original := by
  cases op with
  | removeDuplicates keep => rfl
  | fillMissingValues strategy => exact fill_missing_original strategy s
  | removeOutliers col t =>
    show (DataCleaner.remove_outliers col t s).original = s.original
    unfold DataCleaner.remove_outliers
    dsimp only
    split_ifs <;> rfl
  | fixInvalidValues col idxs v => rfl

/-- Every single preparer call leaves the constructor argument untouched. -/
lemma prepOp_original (op : TableauPrep.Op) (s : TableauPrep.State) :
    (TableauPrep.applyOp s op).original = s.original := by
  cases op <;> rfl

/-- Cleaner call sequences leave the constructor argument untouched. -/
lemma cleanOps_original (ops : List DataCleaner.Op) :
    ∀ s : DataCleaner.State,
      (DataCleaner.applyOps s ops).original = s.original := by
  induction ops with
  | nil => intro s; rfl
  | cons op rest ih =>
    intro s
    show (DataCleaner.applyOps (DataCleaner.applyOp s op) rest).original =
      s.original
    rw [ih, cleanOp_original]

/-- Preparer call sequences leave the constructor argument untouched. -/
lemma prepOps_original (ops : List TableauPrep.Op) :
    ∀ s : TableauPrep.State,
      (TableauPrep.applyOps s ops).original = s.original := by
  induction ops with
  | nil => intro s; rfl
  | cons op rest ih =>
    intro s
    show (TableauPrep.applyOps (TableauPrep.applyOp s op) rest).original =
      s.original
    rw [ih, prepOp_original]

/-- C4: for every input dataset and every sequence of Cleaner or
Presentation-Preparer operations, the dataset passed at construction is never
mutated: both components copy it into a private working copy
(`self.df = df.copy()`) at construction, and every operation rewrites only
that copy and the log. -/
theorem C4_original_never_mutated (d : DataFrame)
    (ops : List DataCleaner.Op) (pops : List TableauPrep.Op) :
    (DataCleaner.applyOps (DataCleaner.init d) ops).original = d ∧
    (TableauPrep.applyOps (TableauPrep.init d) pops).original = d :=
  ⟨cleanOps_original ops (DataCleaner.init d),
   prepOps_original pops (TableauPrep.init d)⟩

/-- `drop_duplicates(keep='first')` is idempotent on the row list. -/
lemma dropDupsAux_idem (l : List (ℤ × List Cell)) :
    ∀ seen, DataCleaner.dropDupsAux seen (DataCleaner.dropDupsAux seen l) =
      DataCleaner.dropDupsAux seen l := by
  induction l with
  | nil => intro seen; rfl
  | cons r rs ih =>
    intro seen
    by_cases h : r.2 ∈ seen
    · simp only [DataCleaner.dropDupsAux, if_pos h]
      exact ih seen
    · simp only [DataCleaner.dropDupsAux, if_neg h]
      rw [ih (r.2 :: seen)]

/-- C6: applying `remove_duplicates(keep='first')` twice in sequence yields
the same Cleaner state as applying it once: the second pass removes zero rows
and, because zero removals are not logged, appends no log entry. -/
theorem C6_remove_duplicates_idempotent (s : DataCleaner.State) :
    DataCleaner.remove_duplicates .first
        (DataCleaner.remove_duplicates .first s) =
      DataCleaner.remove_duplicates .first s := by
  simp [DataCleaner.remove_duplicates, DataCleaner.dropDuplicates,
    dropDupsAux_idem, Nat.sub_self]

/-- C5: filling `[1, 2, None, 4]` with strategy `mean` stores the exact
unrounded mean 7/3 in the null cell, while the log entry reports the fill
value rounded to two decimals, 2.33; the stored value and the logged value
differ — rounding happens only in the log. -/
theorem C5_mean_fill :
    (DataCleaner.fill_missing_values [("age", .mean)]
        (DataCleaner.init dfMean4)).df.rows =
      [(0, [.num 1]), (1, [.num 2]), (2, [.num (7 / 3)]), (3, [.num 4])] ∧
    (DataCleaner.fill_missing_values [("age", .mean)]
        (DataCleaner.init dfMean4)).cleaning_log =
      [.filledMean "age" 1 (some (233 / 100))] ∧
    round2 (7 / 3) = 233 / 100 ∧ (7 / 3 : ℚ) ≠ 233 / 100 := by
  have hmean : meanQ [1, 2, 4] = some (7 / 3) := by norm_num [meanQ]
  have hround : round2 (7 / 3) = 233 / 100 := by
    norm_num [round2, round_eq]
  have hcells : (DataCleaner.init dfMean4).df.colCells 0 =
      [.num 1, .num 2, .null, .num 4] := by decide
  have hpos : DataCleaner.colPos (DataCleaner.init dfMean4).df "age" = 0 := by
    decide
  have hmem : "age" ∈ (DataCleaner.init dfMean4).df.colNames := by decide
  have hrows : (DataCleaner.init dfMean4).df.rows =
      [(0, [.num 1]), (1, [.num 2]), (2, [.null]), (3, [.num 4])] := by decide
  refine ⟨?_, ?_, hround, by norm_num⟩ <;>
  · show _ = _
    rw [show DataCleaner.fill_missing_values [("age", .mean)]
          (DataCleaner.init dfMean4) =
        DataCleaner.fillStep (DataCleaner.init dfMean4) "age" .mean from rfl]
    unfold DataCleaner.fillStep
    rw [if_neg (by decide)]
    norm_num [hpos, hcells, hrows, cellNum, hmean, DataCleaner.fillColumn,
      ite_num_null, decide_eq_true_eq, hround, List.filter_cons,
      List.filterMap_cons, List.modify_zero_cons, List.map_cons]
    try decide

/-- `check_column_names` as a pure record update: it writes only the
`column_name_issues` slot, and only when it found something. -/
lemma check_column_names_eq (df : DataFrame) (I : Issues) :
    DataValidator.check_column_names df I =
      { I with column_name_issues :=
          if (DataValidator.columnNameFindings df).isEmpty then
            I.column_name_issues
          else DataValidator.columnNameFindings df } := by
  unfold DataValidator.check_column_names
  dsimp only
  split_ifs with h <;> simp [h]

/-- `check_duplicates` as a pure record update: it writes only the
`duplicates` slot, and only when it found something. -/
lemma check_duplicates_eq (df : DataFrame) (I : Issues) :
    DataValidator.check_duplicates df I =
      { I with duplicates :=
          if (DataValidator.duplicateRecords df).isEmpty then I.duplicates
          else DataValidator.duplicateRecords df } := by
  unfold DataValidator.check_duplicates
  dsimp only
  split_ifs with h <;> simp [h]

/-- C7: on every in-memory dataset (including unparsable emails, unparsable
dates and mixed representations) `validate_all` is a total function — every
throwing library call is modelled by a total parse (`cellParsesAsDate`,
`emailMatch`) whose failure becomes a recorded finding, never an exception —
and the returned Issue Report always carries all six keys (it is the
six-field `Issues` record), each slot being exactly the accumulation of its
own check's findings from the empty default: a check that found nothing
leaves its slot `[]`. -/
theorem C7_report_shape (df : DataFrame) :
    (DataValidator.validateAllFresh df).column_name_issues =
      DataValidator.columnNameFindings df ∧
    (DataValidator.validateAllFresh df).missing_values =
      (DataValidator.missingFindings df).foldl
        (fun m kv => setA kv.1 kv.2 m) [] ∧
    (DataValidator.validateAllFresh df).duplicates =
      DataValidator.duplicateRecords df ∧
    (DataValidator.validateAllFresh df).outliers =
      (DataValidator.outlierFindings df 3).foldl
        (fun m kv => setA kv.1 kv.2 m) [] ∧
    (DataValidator.validateAllFresh df).format_errors =
      (DataValidator.check_date_format df
        (DataValidator.check_email_format df emptyIssues)).format_errors ∧
    (DataValidator.validateAllFresh df).type_errors =
      (DataValidator.check_boolean_consistency df emptyIssues).type_errors := by
  refine ⟨?_, ?_, ?_, ?_, ?_, ?_⟩ <;>
    simp only [DataValidator.validateAllFresh, DataValidator.validate_all,
      DataValidator.init, check_column_names_eq, check_duplicates_eq]
  · rcases h : DataValidator.columnNameFindings df with _ | ⟨a, l⟩ <;>
      simp [h, DataValidator.check_boolean_consistency,
        DataValidator.check_date_format, DataValidator.check_email_format,
        DataValidator.check_numeric_outliers,
        DataValidator.check_missing_values, emptyIssues]
  · rfl
  · rcases h : DataValidator.duplicateRecords df with _ | ⟨a, l⟩ <;>
      simp [h, DataValidator.check_boolean_consistency,
        DataValidator.check_date_format, DataValidator.check_email_format,
        DataValidator.check_numeric_outliers,
        DataValidator.check_missing_values, emptyIssues]
  · rfl
  · rfl
  · rfl

/-- C8 (counterexample to the claim as stated): on the column `[5, 5, None]`
the two non-null values are equal, so the standard deviation is exactly zero
and `remove_outliers` returns early — the state is unchanged and the null
row survives, although the column exists.  "Every row whose value is null is
also removed" therefore does not hold for every call on an existing
column. -/
theorem C8_counterexample :
    DataCleaner.remove_outliers "x" 3 (DataCleaner.init dfStdZero) =
      DataCleaner.init dfStdZero ∧
    Cell.null ∈ (DataCleaner.remove_outliers "x" 3
        (DataCleaner.init dfStdZero)).df.colCells 0 := by
  have hvals : ((DataCleaner.init dfStdZero).df.colCells
      (DataCleaner.colPos (DataCleaner.init dfStdZero).df "x")).filterMap
        cellNum = [5, 5] := by decide
  have hvar : varQ [5, 5] = 0 := by norm_num [varQ, meanQ]
  have heq : DataCleaner.remove_outliers "x" 3 (DataCleaner.init dfStdZero) =
      DataCleaner.init dfStdZero := by
    unfold DataCleaner.remove_outliers
    rw [if_neg (by decide)]
    simp only [hvals, hvar, List.length_cons, List.length_nil]
    rw [if_pos (by norm_num)]
  exact ⟨heq, by rw [heq]; decide⟩

/-- C8 (amended): for every call `remove_outliers(column, threshold)` where
the column exists AND the zero-std early return does not fire (it fires only
when there are at least two non-null values of zero variance), every row
whose value in that column is null is removed — its NaN z-score fails the
`<=` keep-filter — and when the column has fewer than two non-null values
(std is NaN, which is not equal to 0, so the guard does not trigger) every
row of the working copy is removed. -/
theorem C8_amended (st : DataCleaner.State) (col : String) (t : ℚ)
    (hc : col ∈ st.df.colNames)
    (hguard : ¬(2 ≤ ((st.df.colCells
          (DataCleaner.colPos st.df col)).filterMap cellNum).length ∧
        varQ ((st.df.colCells
          (DataCleaner.colPos st.df col)).filterMap cellNum) = 0)) :
    (∀ r ∈ (DataCleaner.remove_outliers col t st).df.rows,
        (r.2.get? (DataCleaner.colPos st.df col)).getD Cell.null ≠
          Cell.null) ∧
    (((st.df.colCells
          (DataCleaner.colPos st.df col)).filterMap cellNum).length < 2 →
      (DataCleaner.remove_outliers col t st).df.rows = []) := by
  unfold DataCleaner.remove_outliers
  rw [if_neg (fun h => h hc)]
  dsimp only
  rw [if_neg hguard]
  constructor
  · intro r hr heq
    rw [List.mem_filter] at hr
    have hpred := hr.2
    rw [heq] at hpred
    simp [cellNum] at hpred
  · intro hlt
    dsimp only
    rw [List.filter_eq_nil_iff]
    intro r _
    rcases hcell : cellNum ((r.2.get? (DataCleaner.colPos st.df col)).getD
        Cell.null) with _ | v
    · simp [hcell]
    · simp [hcell, Nat.not_le.mpr hlt]

/-- Witness for `C8_amended` on the concrete column `[1, 2, None]` with
threshold 3. -/
theorem C8_amended_witness :
    ("x" ∈ (DataCleaner.init dfWithNull).df.colNames) ∧
    ¬(2 ≤ (((DataCleaner.init dfWithNull).df.colCells
          (DataCleaner.colPos (DataCleaner.init dfWithNull).df "x")).filterMap
            cellNum).length ∧
      varQ (((DataCleaner.init dfWithNull).df.colCells
          (DataCleaner.colPos (DataCleaner.init dfWithNull).df "x")).filterMap
            cellNum) = 0) ∧
    ((∀ r ∈ (DataCleaner.remove_outliers "x" 3
          (DataCleaner.init dfWithNull)).df.rows,
        (r.2.get? (DataCleaner.colPos (DataCleaner.init dfWithNull).df
            "x")).getD Cell.null ≠ Cell.null) ∧
     ((((DataCleaner.init dfWithNull).df.colCells
          (DataCleaner.colPos (DataCleaner.init dfWithNull).df "x")).filterMap
            cellNum).length < 2 →
       (DataCleaner.remove_outliers "x" 3
          (DataCleaner.init dfWithNull)).df.rows = [])) := by
  have hg : ¬(2 ≤ (((DataCleaner.init dfWithNull).df.colCells
        (DataCleaner.colPos (DataCleaner.init dfWithNull).df "x")).filterMap
          cellNum).length ∧
      varQ (((DataCleaner.init dfWithNull).df.colCells
        (DataCleaner.colPos (DataCleaner.init dfWithNull).df "x")).filterMap
          cellNum) = 0) := by
    have hvals : ((DataCleaner.init dfWithNull).df.colCells
        (DataCleaner.colPos (DataCleaner.init dfWithNull).df "x")).filterMap
          cellNum = [1, 2] := by decide
    rw [hvals]
    norm_num [varQ, meanQ]
  exact ⟨by decide, hg, C8_amended (DataCleaner.init dfWithNull) "x" 3
    (by decide) hg⟩

/-- Setting the last position of `xs ++ [a]` replaces `a`. -/
lemma setAppendLast (xs : List Cell) (a w : Cell) :
    (xs ++ [a]).set xs.length w = xs ++ [w] := by
  induction xs with
  | nil => rfl
  | cons x xs ih => simp [List.set, ih]

/-- The position of a fresh column appended on the right is the old column
count. -/
lemma findIdx_append_self (names : List String) (col : String)
    (h : col ∉ names) :
    (names ++ [col]).findIdx (· = col) = names.length := by
  induction names with
  | nil => simp [List.findIdx_cons]
  | cons n ns ih =>
    have hne : ¬(n = col) := fun hc => h (hc ▸ List.mem_cons_self n ns)
    simp only [List.cons_append, List.findIdx_cons, hne, decide_eq_true_eq,
      if_neg hne, decide_False, Bool.false_eq_true, if_false, cond_false]
    rw [ih (fun hm => h (List.mem_cons_of_mem n hm))]
    simp

/-- Enlargement does not change the row labels. -/
lemma labels_enlarge (df : DataFrame) (col : String) (v : Cell)
    (f : ℤ → Bool) : (enlargeWith df col v f).labels = df.labels := by
  simp [enlargeWith, DataFrame.labels]

/-- Two enlargements agreeing on every row label build the same
dataframe. -/
lemma enlarge_congr (df : DataFrame) (col : String) (v : Cell)
    (f g : ℤ → Bool) (h : ∀ x ∈ df.labels, f x = g x) :
    enlargeWith df col v f = enlargeWith df col v g := by
  simp only [enlargeWith, DataFrame.mk.injEq, true_and]
  apply List.map_congr_left
  intro r hr
  rw [h r.1 (List.mem_map.mpr ⟨r, hr, rfl⟩)]

/-- `.at` on an absent column enlarges: the new column holds the value at
the addressed label and null elsewhere. -/
lemma atSet_absent (df : DataFrame) (col : String) (v : Cell) (idx : ℤ)
    (h : col ∉ df.colNames) :
    DataCleaner.atSet df idx col v =
      enlargeWith df col v (fun x => x = idx) := by
  unfold DataCleaner.atSet
  rw [if_neg (fun hmem => h hmem)]
  simp only [enlargeWith, DataFrame.mk.injEq, true_and]
  apply List.map_congr_left
  intro r _
  simp [decide_eq_true_eq]

/-- `.at` on an already-enlarged frame updates the appended column at the
addressed label. -/
lemma atSet_enlarged (df : DataFrame) (col : String) (v : Cell) (idx : ℤ)
    (f : ℤ → Bool) (hcol : col ∉ df.colNames) (hwf : df.WF) :
    DataCleaner.atSet (enlargeWith df col v f) idx col v =
      enlargeWith df col v (fun x => x = idx || f x) := by
  unfold DataCleaner.atSet
  have hmem : col ∈ (enlargeWith df col v f).colNames := by
    simp [enlargeWith]
  rw [if_pos hmem]
  have hpos : DataCleaner.colPos (enlargeWith df col v f) col =
      df.colNames.length := by
    unfold DataCleaner.colPos
    exact findIdx_append_self df.colNames col hcol
  rw [hpos]
  simp only [enlargeWith, DataFrame.mk.injEq, true_and, List.map_map]
  apply List.map_congr_left
  intro r hr
  by_cases hidx : r.1 = idx
  · simp only [Function.comp_apply, hidx, if_pos rfl, Prod.mk.injEq, true_and,
      decide_True, Bool.true_or, if_true]
    have hlen := hwf.2 r hr
    rw [← hlen]
    exact setAppendLast r.2 _ v
  · simp [Function.comp_apply, hidx]

/-- After the first enlargement, the rest of the `fix_invalid_values` loop
adds the remaining present indices to the selection and counts them. -/
lemma fixLoop_enlarged (df : DataFrame) (col : String) (v : Cell)
    (hcol : col ∉ df.colNames) (hwf : df.WF) (rest : List ℤ) :
    ∀ (f : ℤ → Bool) (c : ℕ),
      DataCleaner.fixLoop col v (enlargeWith df col v f) c rest =
        (enlargeWith df col v (fun x => x ∈ rest || f x),
         c + (rest.filter (fun i => i ∈ df.labels)).length) := by
  induction rest with
  | nil =>
    intro f c
    simp only [DataCleaner.fixLoop, List.filter_nil, List.length_nil,
      Nat.add_zero]
    rw [enlarge_congr df col v f (fun x => x ∈ ([] : List ℤ) || f x)
      (by intro x _; simp)]
  | cons idx rest ih =>
    intro f c
    by_cases hidx : idx ∈ df.labels
    · have hmem : idx ∈ (enlargeWith df col v f).labels := by
        rw [labels_enlarge]; exact hidx
      rw [DataCleaner.fixLoop, if_pos hmem,
        atSet_enlarged df col v idx f hcol hwf, ih]
      rw [List.filter_cons_of_pos (by simpa using hidx)]
      refine Prod.ext ?_ ?_ <;> dsimp only
      · apply enlarge_congr
        intro x _
        simp only [List.mem_cons, Bool.decide_or]
        cases decide (x = idx) <;> cases decide (x ∈ rest) <;> cases f x <;>
          rfl
      · simp only [List.length_cons]
        omega
    · have hmem : idx ∉ (enlargeWith df col v f).labels := by
        rw [labels_enlarge]; exact hidx
      rw [DataCleaner.fixLoop, if_neg hmem, ih]
      rw [List.filter_cons_of_neg (by simpa using hidx)]
      refine Prod.ext ?_ ?_ <;> dsimp only
      apply enlarge_congr
      intro x hx
      have hne : x ≠ idx := fun he => hidx (he ▸ hx)
      simp [List.mem_cons, hne]

/-- The whole `fix_invalid_values` loop on an absent column with at least
one present index: it enlarges with exactly the given index set and counts
the present indices (with multiplicity). -/
lemma fixLoop_absent (df : DataFrame) (col : String) (v : Cell)
    (hcol : col ∉ df.colNames) (hwf : df.WF) (indices : List ℤ) :
    (∃ i ∈ indices, i ∈ df.labels) →
      DataCleaner.fixLoop col v df 0 indices =
        (enlargeWith df col v (fun x => x ∈ indices),
         (indices.filter (fun i => i ∈ df.labels)).length) := by
  induction indices with
  | nil => rintro ⟨i, hi, _⟩; cases hi
  | cons idx rest ih =>
    intro hpres
    by_cases hidx : idx ∈ df.labels
    · rw [DataCleaner.fixLoop, if_pos hidx, atSet_absent df col v idx hcol,
        fixLoop_enlarged df col v hcol hwf]
      rw [List.filter_cons_of_pos (by simpa using hidx)]
      refine Prod.ext ?_ ?_ <;> dsimp only
      · apply enlarge_congr
        intro x _
        simp only [List.mem_cons, Bool.decide_or]
        cases decide (x = idx) <;> cases decide (x ∈ rest) <;> rfl
      · simp only [List.length_cons]
        omega
    · rw [DataCleaner.fixLoop, if_neg hidx]
      obtain ⟨i, hi, hil⟩ := hpres
      have hirest : i ∈ rest := by
        rcases List.mem_cons.mp hi with he | hm
        · exact absurd (he ▸ hil) hidx
        · exact hm
      rw [ih ⟨i, hirest, hil⟩]
      rw [List.filter_cons_of_neg (by simpa using hidx)]
      refine Prod.ext ?_ ?_ <;> dsimp only
      apply enlarge_congr
      intro x hx
      have hne : x ≠ idx := fun he => hidx (he ▸ hx)
      simp [List.mem_cons, hne]

/-- C9: when `fix_invalid_values(column, indices, fix_value)` names a column
absent from the working copy but at least one index is present, the operation
does not skip: pandas `.at` enlarges — the named column is created (appended,
object dtype) holding `fix_value` at every present index and null elsewhere
(`enlargeWith`), and the fixed count (the number of present indices) is
logged. -/
theorem C9_at_enlarges (st : DataCleaner.State) (col : String)
    (indices : List ℤ) (v : Cell) (hwf : st.df.WF)
    (hcol : col ∉ st.df.colNames)
    (hpres : ∃ i ∈ indices, i ∈ st.df.labels) :
    (DataCleaner.fix_invalid_values col indices v st).df =
      enlargeWith st.df col v (fun x => x ∈ indices) ∧
    (DataCleaner.fix_invalid_values col indices v st).cleaning_log =
      st.cleaning_log ++ [DataCleaner.LogEntry.fixedInvalid col
        ((indices.filter (fun i => i ∈ st.df.labels)).length)] := by
  unfold DataCleaner.fix_invalid_values
  rw [fixLoop_absent st.df col v hcol hwf indices hpres]
  dsimp only
  refine ⟨rfl, ?_⟩
  obtain ⟨i, hi, hil⟩ := hpres
  have hpos : 0 < (indices.filter (fun j => j ∈ st.df.labels)).length := by
    apply List.length_pos.mpr
    exact List.ne_nil_of_mem (List.mem_filter.mpr ⟨hi, by simpa using hil⟩)
  rw [if_pos hpos]

/-- Witness for `C9_at_enlarges`: a two-row frame without column `b`,
indices `[1, 5]` of which only `1` is present. -/
theorem C9_at_enlarges_witness :
    (DataCleaner.init dfNoColB).df.WF ∧
    ("b" ∉ (DataCleaner.init dfNoColB).df.colNames) ∧
    (∃ i ∈ [(1 : ℤ), 5], i ∈ (DataCleaner.init dfNoColB).df.labels) ∧
    ((DataCleaner.fix_invalid_values "b" [1, 5] (.str "fixed")
        (DataCleaner.init dfNoColB)).df =
      enlargeWith (DataCleaner.init dfNoColB).df "b" (.str "fixed")
        (fun x => x ∈ [(1 : ℤ), 5]) ∧
     (DataCleaner.fix_invalid_values "b" [1, 5] (.str "fixed")
        (DataCleaner.init dfNoColB)).cleaning_log =
      (DataCleaner.init dfNoColB).cleaning_log ++
        [DataCleaner.LogEntry.fixedInvalid "b"
          (([(1 : ℤ), 5].filter
            (fun i => i ∈ (DataCleaner.init dfNoColB).df.labels)).length)]) :=
  ⟨by decide, by decide, by decide,
   C9_at_enlarges (DataCleaner.init dfNoColB) "b" [1, 5] (.str "fixed")
     (by decide) (by decide) (by decide)⟩
